import Mathlib

/-!
# Verification of the Lifecounter application core

Shallow embedding of `src/lifecounter.c` (a Flipper Zero two-player life
counter): the session model, the preferences store round-trip
(`write_config` / `read_config` with a C `atoi` model), the menu and
settings callbacks, the counter-screen input handler, the back-navigation
callback table, the timer lifecycle of the main view, and the `find_index`
array-scan used at startup.

The persistent store is modelled as `Option (List String)`: `none` is a
file whose open fails, `some lines` is a file holding the given
newline-terminated lines (lines are kept without their terminator; a
trailing newline never changes the result of `atoi`, which stops at the
first non-digit character).
-/

namespace Lifecounter

/-- The four views (screens) of the application, `LifecounterView` in the source. -/
inductive LifecounterView where
  | Splash
  | Submenu
  | Configure
  | Main
deriving DecidableEq, Repr

/-- The three menu entries, `LifecounterSubmenuIndex` in the source. -/
inductive LifecounterSubmenuIndex where
  | Configure
  | Main
  | Reset
deriving DecidableEq, Repr

/-- Input keys of the device relevant to the handlers in the source. -/
inductive InputKey where
  | Up
  | Down
  | Right
  | Left
  | Ok
  | Back
deriving DecidableEq, Repr

/-- Input event types of the device; the source handlers test `InputTypeShort`
and `InputTypePress` and ignore the rest. -/
inductive InputType where
  | Press
  | Release
  | Short
  | Long
  | Repeat
deriving DecidableEq, Repr

/-- The session model, `LifecounterModel` in the source. `selected_player` is a
`uint8_t` in C, modelled as `Nat`; the life totals are C `int`, modelled as `Int`. -/
structure LifecounterModel where
  default_life : Int
  selected_player : Nat
  player_1_life : Int
  player_2_life : Int
  backlight_on : Bool
  sound_on : Bool
deriving DecidableEq, Repr

/-- The array `static int default_life_values[] = {0, 10, 20, 40, 100}`. -/
def default_life_values : List Int := [0, 10, 20, 40, 100]

/-- The array `static char* default_life_names[]` of the five value labels. -/
def default_life_names : List String := ["Zero", "Ten", "Twenty", "Forty", "Hundred"]

/-- The array `static int toggle_state_values[] = {0, 1}`. -/
def toggle_state_values : List Int := [0, 1]

/-- The array `static char* toggle_states_names[]` of the two toggle labels. -/
def toggle_states_names : List String := ["Off", "On"]

/-- C `isspace` on the default locale (the characters `atoi` skips). -/
def isSpaceChar (c : Char) : Bool :=
  c = ' ' || c = '\t' || c = '\n' || c = '\x0b' || c = '\x0c' || c = '\r'

/-- Decimal value of a digit run, most significant first. -/
def digitsToNat (cs : List Char) : Nat :=
  cs.foldl (fun acc c => acc * 10 + (c.toNat - Char.toNat '0')) 0

/-- C `atoi`: skip leading whitespace, read an optional sign, then consume a
maximal run of decimal digits; an empty run yields 0. (Overflow of the C
`int` range is undefined behaviour in C and out of scope here; every input
considered below is far below that range.) -/
def atoi (s : String) : Int :=
  match s.data.dropWhile isSpaceChar with
  | '-' :: rest => -(digitsToNat (rest.takeWhile Char.isDigit) : Int)
  | '+' :: rest => (digitsToNat (rest.takeWhile Char.isDigit) : Int)
  | cs => (digitsToNat (cs.takeWhile Char.isDigit) : Int)

/-- C truth conversion `(bool)value` / implicit `bool` → `int`: `true` is 1. -/
def boolToInt (b : Bool) : Int := if b then 1 else 0

/-- Model of `write_config`: `furi_string_printf(settings, "%d\n%d\n%d\n", life, backlight, sound)`
with `FSOM_CREATE_ALWAYS` (truncate) semantics — the store content becomes exactly
these three lines. -/
def write_config (model : LifecounterModel) : List String :=
  [toString model.default_life,
   toString (boolToInt model.backlight_on),
   toString (boolToInt model.sound_on)]

/-- Model of `read_config`: open the store (`none` = open failed); read up to three lines,
stopping at the first failed read; line 0 is `atoi`-parsed into `default_life`,
lines 1 and 2 are `atoi`-parsed and cast to `bool` (nonzero = true); fields with
no line keep the defaults 20 / false / false. Both life totals are initialised
to the resulting `default_life` and `selected_player` to 0. -/
def read_config (store : Option (List String)) : LifecounterModel :=
  let fields : Int × Bool × Bool :=
    match store with
    | none => (20, false, false)
    | some lines =>
      match lines with
      | [] => (20, false, false)
      | [l0] => (atoi l0, false, false)
      | [l0, l1] => (atoi l0, atoi l1 != 0, false)
      | l0 :: l1 :: l2 :: _ => (atoi l0, atoi l1 != 0, atoi l2 != 0)
  { default_life := fields.1
    selected_player := 0
    player_1_life := fields.1
    player_2_life := fields.1
    backlight_on := fields.2.1
    sound_on := fields.2.2 }

/-- Model of `submenu_callback`: Configure and Main switch views; Reset sets both life
totals to the current `default_life` (then plays the reset tone, an external
effect) and switches to the main view. Returns the updated model and the view
passed to `view_dispatcher_switch_to_view`. -/
def submenu_callback (model : LifecounterModel) :
    LifecounterSubmenuIndex → LifecounterModel × Option LifecounterView
  | .Configure => (model, some .Configure)
  | .Main => (model, some .Main)
  | .Reset =>
    ({ model with
        player_1_life := model.default_life
        player_2_life := model.default_life },
      some .Main)

/-- Combined state of the session model and the persistent store, for the
settings callbacks (which may touch either). -/
structure SysState where
  model : LifecounterModel
  store : Option (List String)
deriving DecidableEq, Repr

/-- Model of `default_life_change`: the variable item reports its current value index
(always below the item's value count, 5); the callback sets
`model->default_life = default_life_values[index]` and updates the item label,
touching nothing else. -/
def default_life_change (index : Fin 5) (s : SysState) : SysState :=
  { s with model := { s.model with default_life := default_life_values.getD index.val 0 } }

/-- Model of `backlight_change`: sets `model->backlight_on = index` (C bool cast:
nonzero is true) and issues the backlight hardware directive (an external
effect, not part of the state). -/
def backlight_change (index : Fin 2) (s : SysState) : SysState :=
  { s with model := { s.model with backlight_on := index.val != 0 } }

/-- Model of `audio_change`: sets `model->sound_on = index` (C bool cast). -/
def audio_change (index : Fin 2) (s : SysState) : SysState :=
  { s with model := { s.model with sound_on := index.val != 0 } }

/-- Model of `setting_item_clicked`: only item index 3 (the save button) does anything:
it plays a tone (external), persists the current model with `write_config`
(CREATE_ALWAYS: the store content is replaced), and switches to the submenu.
Every other index leaves the state untouched and requests no transition. -/
def setting_item_clicked (index : Nat) (s : SysState) :
    SysState × Option LifecounterView :=
  if index = 3 then
    ({ s with store := some (write_config s.model) }, some .Submenu)
  else
    (s, none)

/-- Model of `view_main_input_callback`: on a Short event, Up/Down adjust the selected
player's life by ±1, Left/Right toggle `selected_player`; on Press of Ok, switch
to the submenu and return `true` (handled); everything else falls through and
returns `false`. Result: updated model, requested view switch, handler return
value. (The unconditional `with_view_model` redraw at the end of the C handler
mutates nothing.) -/
def view_main_input_callback (ty : InputType) (key : InputKey)
    (model : LifecounterModel) : LifecounterModel × Option LifecounterView × Bool :=
  if ty = .Short then
    if key = .Up then
      ((if model.selected_player = 0 then
          { model with player_1_life := model.player_1_life + 1 }
        else
          { model with player_2_life := model.player_2_life + 1 }),
        none, false)
    else if key = .Down then
      ((if model.selected_player = 0 then
          { model with player_1_life := model.player_1_life - 1 }
        else
          { model with player_2_life := model.player_2_life - 1 }),
        none, false)
    else if key = .Left || key = .Right then
      ((if model.selected_player = 0 then
          { model with selected_player := 1 }
        else
          { model with selected_player := 0 }),
        none, false)
    else (model, none, false)
  else if ty = .Press && key = .Ok then
    (model, some .Submenu, true)
  else (model, none, false)

/-- The life total of the counter the selector currently denotes. -/
def activeLife (m : LifecounterModel) : Int :=
  if m.selected_player = 0 then m.player_1_life else m.player_2_life

/-- The life total of the counter the selector does not denote. -/
def otherLife (m : LifecounterModel) : Int :=
  if m.selected_player = 0 then m.player_2_life else m.player_1_life

/-- Model of `navigation_exit_callback`: returns `VIEW_NONE`, modelled as `none`
(the dispatcher stops; application exit). -/
def navigation_exit_callback : Option LifecounterView := none

/-- Model of `navigation_submenu_callback`: returns `LifecounterViewSubmenu`. -/
def navigation_submenu_callback : Option LifecounterView := some .Submenu

/-- Model of `navigation_main_callback`: returns `LifecounterViewMain`. -/
def navigation_main_callback : Option LifecounterView := some .Main

/-- The `view_set_previous_callback` table built in `app_alloc`: the target the
dedicated back input requests from each view (`none` = application exit). -/
def previous_view : LifecounterView → Option LifecounterView
  | .Submenu => navigation_exit_callback
  | .Configure => navigation_submenu_callback
  | .Main => navigation_submenu_callback
  | .Splash => navigation_main_callback

/-- Navigation state: the dispatcher's current view (`none` before the first
`switch_to`) and the number of allocated-and-running redraw timers. -/
structure NavState where
  current : Option LifecounterView
  timers : Nat
deriving DecidableEq, Repr

/-- Enter hooks: only the main view has one (`view_main_enter_callback`): it
asserts no timer is active, allocates one and starts it. -/
def enter_hook (v : LifecounterView) (timers : Nat) : Nat :=
  if v = .Main then timers + 1 else timers

/-- Exit hooks: only the main view has one (`view_main_exit_callback`): it
stops and frees the timer. -/
def exit_hook (v : Option LifecounterView) (timers : Nat) : Nat :=
  if v = some .Main then timers - 1 else timers

/-- View-dispatcher transition semantics (the external firmware contract, §4.1
of the design: run the current view's exit hook, mark the target current, run
its enter hook). -/
def switch_to (target : LifecounterView) (s : NavState) : NavState :=
  { current := some target, timers := enter_hook target (exit_hook s.current s.timers) }

/-- The dispatcher as `app_alloc` leaves it before the first transition: no
current view, and `app->timer` is NULL (no timer). -/
def initial_nav : NavState := { current := none, timers := 0 }

/-- Navigation states reachable by any sequence of view switches from startup. -/
inductive ReachableNav : NavState → Prop where
  | init : ReachableNav initial_nav
  | step (v : LifecounterView) {s : NavState} :
      ReachableNav s → ReachableNav (switch_to v s)

/-- The index at which `find_index`'s scan loop
(`while (index < size && a[index] != value) ++index;`) stops, starting from
`index` with `fuel = size - index` iterations left. `mem` is the int-typed
memory at each index from the array's base — indices at or past the array's
length read out of bounds. -/
def find_index_stop_from (mem : Nat → Int) (value : Int) :
    Nat → Nat → Nat
  | 0, index => index
  | fuel + 1, index =>
    if mem index = value then index
    else find_index_stop_from mem value fuel (index + 1)

/-- Where `find_index`'s loop stops for a scan of `size` slots from index 0. -/
def find_index_stop (mem : Nat → Int) (size : Nat) (value : Int) : Nat :=
  find_index_stop_from mem value size 0

/-- Model of `find_index`: -1 when the loop ran off the end, the stop index otherwise. -/
def find_index (mem : Nat → Int) (size : Nat) (value : Int) : Int :=
  let stop := find_index_stop mem size value
  if stop = size then -1 else (stop : Int)

/-- The indices at which `find_index`'s loop evaluates `a[index]`: every index
below `size` that the loop reaches (it reads at each index up to and including
the one it stops at, except `size` itself, where the bound check short-circuits). -/
def find_index_reads (mem : Nat → Int) (size : Nat) (value : Int) : List Nat :=
  (List.range size).filter (fun i => i ≤ find_index_stop mem size value)

/-- The byte count `sizeof(default_life_values)` on the 32-bit target: five 4-byte ints, 20.
`app_alloc` passes this byte count — not the element count — as `find_index`'s
`size` argument for the starting-life lookup. -/
def sizeof_default_life_values : Nat := 4 * default_life_values.length

/-- Run a sequence of Short input events through the main view's input handler. -/
def run_short_inputs (ks : List InputKey) (m : LifecounterModel) : LifecounterModel :=
  ks.foldl (fun acc k => (view_main_input_callback .Short k acc).1) m

/-- A sample session model used to instantiate universally quantified results. -/
def sample_model : LifecounterModel :=
  { default_life := 20
    selected_player := 0
    player_1_life := 5
    player_2_life := -3
    backlight_on := false
    sound_on := true }

/-- A sample combined state used to instantiate universally quantified results. -/
def sample_sys : SysState := { model := sample_model, store := none }

/-! ## Helper lemmas -/

/-- Round trip on the three persisted fields, checked for every value of the
finite domain: the five legal starting-life values and both flags. -/
lemma roundtrip_concrete : ∀ dl ∈ default_life_values, ∀ b s : Bool,
    read_config (some [toString dl, toString (boolToInt b), toString (boolToInt s)]) =
      ⟨dl, 0, dl, dl, b, s⟩ := by
  decide

/-- Reading back a configuration written from a model with a legal starting
life reproduces the three persisted fields (and initialises both life totals
to the starting life). -/
lemma write_read_eq (m : LifecounterModel) (h : m.default_life ∈ default_life_values) :
    read_config (some (write_config m)) =
      ⟨m.default_life, 0, m.default_life, m.default_life, m.backlight_on, m.sound_on⟩ :=
  roundtrip_concrete m.default_life h m.backlight_on m.sound_on

/-- A list with no digit character has an empty maximal digit prefix. -/
lemma takeWhile_digits_nil (l : List Char) (h : ∀ c ∈ l, c.isDigit = false) :
    l.takeWhile Char.isDigit = [] := by
  cases l with
  | nil => rfl
  | cons a t => simp [List.takeWhile_cons, h a (List.mem_cons_self a t)]

/-- Applying `atoi` to a string containing no digit character gives 0. -/
lemma atoi_no_digit (s : String) (h : ∀ c ∈ s.data, c.isDigit = false) :
    atoi s = 0 := by
  have hsub : ∀ c ∈ s.data.dropWhile isSpaceChar, c.isDigit = false :=
    fun c hc => h c ((List.dropWhile_sublist _).subset hc)
  unfold atoi
  split
  · next rest heq =>
    have ht : ∀ c ∈ rest, c.isDigit = false :=
      fun c hc => hsub c (heq ▸ List.mem_cons_of_mem _ hc)
    rw [takeWhile_digits_nil _ ht]
    simp [digitsToNat]
  · next rest heq =>
    have ht : ∀ c ∈ rest, c.isDigit = false :=
      fun c hc => hsub c (heq ▸ List.mem_cons_of_mem _ hc)
    rw [takeWhile_digits_nil _ ht]
    simp [digitsToNat]
  · rw [takeWhile_digits_nil _ hsub]
    simp [digitsToNat]

/-! ## Claims -/

/-- Claim C1 (confirmed). Preferences round-trip: for every record whose
default life is one of the five legal values (flags arbitrary), writing with
`write_config` and reading back with `read_config`, with no external mutation
in between, reproduces the default life, the backlight flag and the sound flag. -/
theorem claim_C1 (m : LifecounterModel) (h : m.default_life ∈ default_life_values) :
    (read_config (some (write_config m))).default_life = m.default_life ∧
    (read_config (some (write_config m))).backlight_on = m.backlight_on ∧
    (read_config (some (write_config m))).sound_on = m.sound_on := by
  rw [write_read_eq m h]
  exact ⟨rfl, rfl, rfl⟩

/-- Witness for C1 at the record {40, backlight on, sound off}. -/
theorem claim_C1_witness :
    (read_config (some (write_config ⟨40, 0, 5, -3, true, false⟩))).default_life = 40 ∧
    (read_config (some (write_config ⟨40, 0, 5, -3, true, false⟩))).backlight_on = true ∧
    (read_config (some (write_config ⟨40, 0, 5, -3, true, false⟩))).sound_on = false :=
  claim_C1 ⟨40, 0, 5, -3, true, false⟩ (by decide)

/-- Counterexample to C2 as stated: the corrupt (non-numeric) store
"x\n1\n1\n" does not yield the fixed default record — `atoi` parses the
non-numeric first line as 0, so the default life comes back 0, not 20 (and
the flags come back on, not off). -/
theorem claim_C2_counterexample :
    (read_config (some ["x", "1", "1"])).default_life = 0 ∧
    (read_config (some ["x", "1", "1"])).backlight_on = true ∧
    ¬ (read_config (some ["x", "1", "1"])).default_life = 20 := by
  decide

/-- Claim C2 as amended: `read_config` never fails; an empty store (open
failure or zero lines) yields the fixed default record {20, off, off}; a
truncated store substitutes the defaults only for the unread fields (one line:
both flags off; two lines: sound off); and non-numeric text parses as 0, so a
non-numeric first line yields default life 0 (not 20). -/
theorem claim_C2 :
    read_config none = ⟨20, 0, 20, 20, false, false⟩ ∧
    read_config (some []) = ⟨20, 0, 20, 20, false, false⟩ ∧
    (∀ l0 : String,
      (read_config (some [l0])).backlight_on = false ∧
      (read_config (some [l0])).sound_on = false) ∧
    (∀ l0 l1 : String, (read_config (some [l0, l1])).sound_on = false) ∧
    (∀ (l0 : String) (rest : List String), (∀ c ∈ l0.data, c.isDigit = false) →
      (read_config (some (l0 :: rest))).default_life = 0) := by
  refine ⟨rfl, rfl, fun l0 => ⟨rfl, rfl⟩, fun l0 l1 => rfl, fun l0 rest h => ?_⟩
  have h0 := atoi_no_digit l0 h
  match rest with
  | [] => simpa [read_config] using h0
  | [l1] => simpa [read_config] using h0
  | l1 :: l2 :: t => simpa [read_config] using h0

/-- Witness for C2's amended hypotheses at the one-line store ["x"]. -/
theorem claim_C2_witness :
    (read_config (some ["x"])).default_life = 0 :=
  claim_C2.2.2.2.2 "x" [] (by decide)

/-- Counterexample to C3 as stated: the Splash screen's back callback is
`navigation_main_callback`, which requests a transition to the Main (Counter)
view — it does not signal application exit. -/
theorem claim_C3_counterexample :
    previous_view .Splash = some .Main ∧ previous_view .Splash ≠ none := by
  decide

/-- Claim C3 as amended: back on the Menu requests application exit
(`VIEW_NONE`); back on Settings and on the Counter screen requests the Menu;
back on Splash requests a transition to the Counter (Main) screen, not exit. -/
theorem claim_C3 :
    previous_view .Submenu = none ∧
    previous_view .Configure = some .Submenu ∧
    previous_view .Main = some .Submenu ∧
    previous_view .Splash = some .Main := by
  decide

/-- Counterexample to C4 as stated: loading the store "7\n0\n0\n" sets the
session's default life to 7, which is not one of {0, 10, 20, 40, 100}. -/
theorem claim_C4_counterexample :
    (read_config (some ["7", "0", "0"])).default_life = 7 ∧
    (7 : Int) ∉ default_life_values := by
  decide

/-- Claim C4 as amended: cycling the starting-value item always leaves the
default life in {0, 10, 20, 40, 100}; loading the configuration preserves the
invariant only when the stored integer is itself in the set — in particular
after loading a store written by `write_config` from a valid record — while a
corrupt store can set a value outside the set. -/
theorem claim_C4 :
    (∀ (i : Fin 5) (s : SysState),
      (default_life_change i s).model.default_life ∈ default_life_values) ∧
    (∀ m : LifecounterModel, m.default_life ∈ default_life_values →
      (read_config (some (write_config m))).default_life ∈ default_life_values) := by
  constructor
  · intro i s
    fin_cases i <;> simp [default_life_change, default_life_values]
  · intro m h
    rw [write_read_eq m h]
    exact h

/-- Witness for C4's second conjunct at the record {100, both flags on}. -/
theorem claim_C4_witness :
    (read_config (some (write_config ⟨100, 1, 2, 3, true, true⟩))).default_life ∈
      default_life_values :=
  claim_C4.2 ⟨100, 1, 2, 3, true, true⟩ (by decide)

/-- Claim C5 (confirmed). Reset postcondition: for every prior model —
counters arbitrary, including negative — activating the menu's Reset entry
sets both life totals exactly to the current in-memory default life (and then
switches to the Counter view). -/
theorem claim_C5 : ∀ m : LifecounterModel,
    (submenu_callback m .Reset).1.player_1_life = m.default_life ∧
    (submenu_callback m .Reset).1.player_2_life = m.default_life ∧
    (submenu_callback m .Reset).2 = some .Main := by
  intro m
  exact ⟨rfl, rfl, rfl⟩

/-- Claim C6 (confirmed). On the Counter screen, a Short Up input increases the
currently selected counter by exactly 1 and a Short Down input decreases it by
exactly 1, leaving the other counter and the selector unchanged; there is no
bound, so decrementing at 0 yields the negative value -1. -/
theorem claim_C6 :
    (∀ m : LifecounterModel,
      activeLife (view_main_input_callback .Short .Up m).1 = activeLife m + 1 ∧
      otherLife (view_main_input_callback .Short .Up m).1 = otherLife m ∧
      (view_main_input_callback .Short .Up m).1.selected_player = m.selected_player ∧
      activeLife (view_main_input_callback .Short .Down m).1 = activeLife m - 1 ∧
      otherLife (view_main_input_callback .Short .Down m).1 = otherLife m ∧
      (view_main_input_callback .Short .Down m).1.selected_player = m.selected_player) ∧
    (view_main_input_callback .Short .Down ⟨20, 0, 0, 7, false, false⟩).1.player_1_life
        = -1 ∧
    (-1 : Int) < 0 := by
  refine ⟨fun m => ?_, by decide, by decide⟩
  by_cases h : m.selected_player = 0 <;>
    simp [view_main_input_callback, activeLife, otherLife, h]

/-- The left and right keys both flip the selector between 0 and 1. -/
lemma toggle_sel (k : InputKey) (hk : k = InputKey.Left ∨ k = InputKey.Right)
    (m : LifecounterModel) :
    (view_main_input_callback .Short k m).1.selected_player =
      if m.selected_player = 0 then 1 else 0 := by
  rcases hk with h | h <;> subst h <;>
    by_cases h0 : m.selected_player = 0 <;>
    simp [view_main_input_callback, h0]

/-- Parity of the selector under a run of left/right toggles, from any selector
value in {0, 1}. -/
lemma run_toggle_parity (ks : List InputKey)
    (h : ∀ k ∈ ks, k = InputKey.Left ∨ k = InputKey.Right) :
    ∀ m : LifecounterModel, m.selected_player < 2 →
      (run_short_inputs ks m).selected_player = (m.selected_player + ks.length) % 2 := by
  induction ks with
  | nil =>
    intro m hm
    simpa [run_short_inputs] using (Nat.mod_eq_of_lt hm).symm
  | cons k t ih =>
    intro m hm
    have hk := h k (List.mem_cons_self k t)
    have ht : ∀ x ∈ t, x = InputKey.Left ∨ x = InputKey.Right :=
      fun x hx => h x (List.mem_cons_of_mem k hx)
    have hstep := toggle_sel k hk m
    have hrun : run_short_inputs (k :: t) m =
        run_short_inputs t (view_main_input_callback .Short k m).1 := rfl
    rw [hrun]
    by_cases h0 : m.selected_player = 0
    · have hs : (view_main_input_callback .Short k m).1.selected_player = 1 := by
        rw [hstep]; simp [h0]
      rw [ih ht _ (by rw [hs]; exact Nat.one_lt_two), hs, h0]
      simp only [List.length_cons]
      omega
    · have h1 : m.selected_player = 1 := by omega
      have hs : (view_main_input_callback .Short k m).1.selected_player = 0 := by
        rw [hstep]; simp [h0]
      rw [ih ht _ (by rw [hs]; exact Nat.zero_lt_two), hs, h1]
      simp only [List.length_cons]
      omega

/-- Claim C7 (confirmed). Left and Right act identically on the model, and
starting from selector A (0), after any sequence of N left/right inputs the
selector is A when N is even and B (1) when N is odd — so it always denotes one
of the two counters. -/
theorem claim_C7 :
    (∀ m : LifecounterModel,
      view_main_input_callback .Short .Left m = view_main_input_callback .Short .Right m) ∧
    (∀ (ks : List InputKey) (m : LifecounterModel),
      (∀ k ∈ ks, k = InputKey.Left ∨ k = InputKey.Right) →
      m.selected_player = 0 →
      (run_short_inputs ks m).selected_player =
        if ks.length % 2 = 0 then 0 else 1) := by
  constructor
  · intro m
    by_cases h0 : m.selected_player = 0 <;> simp [view_main_input_callback, h0]
  · intro ks m h hm
    rw [run_toggle_parity ks h m (by omega), hm]
    rcases Nat.mod_two_eq_zero_or_one ks.length with h2 | h2 <;> simp [h2]

/-- Witness for C7's parity conjunct: three toggles from `sample_model`
(selector A) land on selector B. -/
theorem claim_C7_witness :
    (run_short_inputs [InputKey.Left, InputKey.Right, InputKey.Left]
        sample_model).selected_player =
      if [InputKey.Left, InputKey.Right, InputKey.Left].length % 2 = 0 then 0 else 1 :=
  claim_C7.2 [InputKey.Left, InputKey.Right, InputKey.Left] sample_model
    (by decide) rfl

/-- Claim C8 (confirmed). Timer scoping: in every navigation state reachable by
any sequence of view switches from startup, exactly one redraw timer is active
when the Main (Counter) view is current and none otherwise — so at most one
timer is ever active, entering the Counter view starts exactly one, and every
exit stops it. Moreover the timer count right after the exit hook runs (the
value `view_main_enter_callback` asserts to be NULL) is always 0. -/
theorem claim_C8 : ∀ s : NavState, ReachableNav s →
    (s.timers = if s.current = some LifecounterView.Main then 1 else 0) ∧
    exit_hook s.current s.timers = 0 := by
  intro s h
  induction h with
  | init => exact ⟨rfl, rfl⟩
  | step v hs ih =>
    obtain ⟨h1, h2⟩ := ih
    constructor
    · show enter_hook v (exit_hook _ _) = _
      rw [h2]
      cases v <;> simp [enter_hook, switch_to]
    · show exit_hook (some v) (enter_hook v (exit_hook _ _)) = 0
      rw [h2]
      cases v <;> simp [enter_hook, exit_hook]

/-- Witness for C8 at the state reached by switching once to the Main view. -/
theorem claim_C8_witness :
    ((switch_to .Main initial_nav).timers =
      if (switch_to .Main initial_nav).current = some LifecounterView.Main then 1
      else 0) ∧
    exit_hook (switch_to .Main initial_nav).current (switch_to .Main initial_nav).timers
      = 0 :=
  claim_C8 _ (ReachableNav.step .Main ReachableNav.init)

/-- Claim C9 (confirmed). Settings edits are live but framed: each change
callback immediately sets its own field of the in-memory model (the starting
value from the 5-entry value table, each toggle from its 0/1 index), leaves
the store and both life totals untouched; and `setting_item_clicked` persists
the current preferences — replacing the store content — exactly when the save
item (index 3) is activated, leaving everything untouched on any other index. -/
theorem claim_C9 : ∀ (s : SysState) (i : Fin 5) (j : Fin 2) (idx : Nat),
    (default_life_change i s).store = s.store ∧
    (default_life_change i s).model.player_1_life = s.model.player_1_life ∧
    (default_life_change i s).model.player_2_life = s.model.player_2_life ∧
    (default_life_change i s).model.default_life = default_life_values.getD i.val 0 ∧
    (backlight_change j s).store = s.store ∧
    (backlight_change j s).model.player_1_life = s.model.player_1_life ∧
    (backlight_change j s).model.player_2_life = s.model.player_2_life ∧
    (backlight_change j s).model.backlight_on = (j.val != 0) ∧
    (audio_change j s).store = s.store ∧
    (audio_change j s).model.player_1_life = s.model.player_1_life ∧
    (audio_change j s).model.player_2_life = s.model.player_2_life ∧
    (audio_change j s).model.sound_on = (j.val != 0) ∧
    (idx ≠ 3 → setting_item_clicked idx s = (s, none)) ∧
    (setting_item_clicked 3 s).1.store = some (write_config s.model) ∧
    (setting_item_clicked 3 s).1.model = s.model ∧
    (setting_item_clicked 3 s).2 = some LifecounterView.Submenu := by
  intro s i j idx
  refine ⟨rfl, rfl, rfl, rfl, rfl, rfl, rfl, rfl, rfl, rfl, rfl, rfl,
    fun h => ?_, rfl, rfl, rfl⟩
  simp [setting_item_clicked, h]

/-- Witness for C9 at `sample_sys`: a click on item 0 neither persists nor
navigates. -/
theorem claim_C9_witness :
    setting_item_clicked 0 sample_sys = (sample_sys, none) :=
  (claim_C9 sample_sys 0 0 0).2.2.2.2.2.2.2.2.2.2.2.2.1 (by decide)

/-- The scan loop never stops before its starting index. -/
lemma find_index_stop_from_ge (mem : Nat → Int) (v : Int) :
    ∀ (fuel index : Nat), index ≤ find_index_stop_from mem v fuel index := by
  intro fuel
  induction fuel with
  | zero => intro index; simp [find_index_stop_from]
  | succ n ih =>
    intro index
    simp only [find_index_stop_from]
    split
    · exact Nat.le_refl index
    · exact Nat.le_trans (Nat.le_succ index) (ih (index + 1))

/-- If no slot from `index` up to (excluding) `target` holds `value`, and the
fuel reaches `target`, the scan loop runs at least to `target`. -/
lemma find_index_stop_from_lower (mem : Nat → Int) (v : Int) :
    ∀ (fuel index target : Nat), target ≤ index + fuel →
      (∀ j, index ≤ j → j < target → mem j ≠ v) →
      target ≤ find_index_stop_from mem v fuel index := by
  intro fuel
  induction fuel with
  | zero =>
    intro index target hle _
    simpa [find_index_stop_from] using hle
  | succ n ih =>
    intro index target hle hne
    simp only [find_index_stop_from]
    split
    · next hv =>
      rcases Nat.lt_or_ge index target with hlt | hge
      · exact absurd hv (hne index (Nat.le_refl index) hlt)
      · exact hge
    · exact ih (index + 1) target (by omega) (fun j hj hjt => hne j (by omega) hjt)

/-- Claim C10 (the code violates it). The stored configuration "7\n0\n0\n"
parses to default life 7; the startup lookup calls `find_index` with
`sizeof(default_life_values)` = 20 as the size, and since no element of the
5-element array equals 7, the scan loop evaluates `a[5]` — an out-of-bounds
read one past the array — whatever the memory beyond the array holds. -/
theorem claim_C10 : ∀ mem : Nat → Int,
    (∀ i, i < default_life_values.length → mem i = default_life_values.getD i 0) →
    default_life_values.length ≤ 5 ∧
    5 ∈ find_index_reads mem sizeof_default_life_values
        ((read_config (some ["7", "0", "0"])).default_life) := by
  intro mem hmem
  have hv : (read_config (some ["7", "0", "0"])).default_life = 7 := by decide
  refine ⟨by decide, ?_⟩
  rw [hv]
  have hlow : 5 ≤ find_index_stop mem sizeof_default_life_values 7 := by
    apply find_index_stop_from_lower mem 7 sizeof_default_life_values 0 5 (by decide)
    intro j _ hj
    have hmj := hmem j (by simpa [default_life_values] using hj)
    rw [hmj]
    interval_cases j <;> decide
  simp only [find_index_reads, List.mem_filter, List.mem_range, decide_eq_true_eq]
  exact ⟨by decide, hlow⟩

/-- Witness for C10 with the memory that extends the array by zeros. -/
theorem claim_C10_witness :
    default_life_values.length ≤ 5 ∧
    5 ∈ find_index_reads (fun i => default_life_values.getD i 0)
        sizeof_default_life_values
        ((read_config (some ["7", "0", "0"])).default_life) :=
  claim_C10 (fun i => default_life_values.getD i 0) (fun _ _ => rfl)

end Lifecounter
